import Mathlib

/-!
Verification of the Aura Bank ML API server (`src/model/ml_api.py`) against its
natural-language specification.

The Python endpoints are shallowly embedded in Lean: JSON numbers become `Rat`
(the heuristic-scoring arithmetic is exact decimal arithmetic at this scale, so
rationals model the Python float computations faithfully away from
representation-level ties), JSON strings become `String`, optional model
handles become `Bool` flags, and the opaque trained-model inference calls
become explicit parameters (`Option` values whose `none` case models a raised
exception, exactly as the `try/except` blocks treat it).  Fallible endpoints
return `Except (Nat × String)` carrying the HTTP status of the error branch.
-/

/-- `round(x, k)` from Python, modelled at the exact-rational level: round the
scaled value half-to-even to an integer.  (CPython rounds the nearest binary
double; on the decimal-exact values reached by the theorems below the two
agree.)  First the integer rounding. -/
def roundHalfEven (q : Rat) : Int :=
  let f := ⌊q⌋
  let frac := q - f
  if frac < 1/2 then f
  else if frac > 1/2 then f + 1
  else if f % 2 = 0 then f else f + 1

/-- `round(x, k)`: scale by `10^k`, round half-to-even, scale back. -/
def pyRound (k : Nat) (q : Rat) : Rat :=
  (roundHalfEven (q * 10 ^ k) : Rat) / 10 ^ k

/-- Python's two-argument `min` (returns the first argument on ties). -/
def ratMin (a b : Rat) : Rat := if a ≤ b then a else b

/-- Python's two-argument `max` (ties cannot matter for the uses below). -/
def ratMax (a b : Rat) : Rat := if a ≤ b then b else a

/-! ## Fraud detection (`/predict_fraud`, `ml_api.py` lines 94–202) -/

/-- The request fields the fraud endpoint reads, after the JSON plumbing has
applied the defaults (`Amount` defaults to 0, `hour` to 12, the two booleans
to `False`).  The V1..V28 PCA fields feed only the opaque model and are not
needed by any claim. -/
structure FraudRequest where
  simplified : Bool
  amount : Rat
  hour : Rat
  is_foreign : Bool
  rapid_transactions : Bool
deriving DecidableEq

/-- Simplified-mode risk score after the amount tier, lines 127–135:
`risk_score = 0.0`, then `+0.30`/`+0.15`/`+0.05` by amount.  (Each
`risk_score += …` statement of the source is one stage function here.) -/
def fraudScore1 (req : FraudRequest) : Rat :=
  if req.amount > 5000 then (0 : Rat) + 0.3
  else if req.amount > 2000 then (0 : Rat) + 0.15
  else if req.amount > 1000 then (0 : Rat) + 0.05
  else 0

/-- …after the extreme-amount bump, lines 138–139. -/
def fraudScore2 (req : FraudRequest) : Rat :=
  if req.amount < 1 ∨ req.amount > 10000 then fraudScore1 req + 0.2
  else fraudScore1 req

/-- …after the late-hour bump, lines 142–144. -/
def fraudScore3 (req : FraudRequest) : Rat :=
  if req.hour < 6 ∨ req.hour > 23 then fraudScore2 req + 0.1
  else fraudScore2 req

/-- …after the foreign-transaction bump, lines 147–148. -/
def fraudScore4 (req : FraudRequest) : Rat :=
  if req.is_foreign then fraudScore3 req + 0.15 else fraudScore3 req

/-- …after the rapid-transactions bump, lines 151–152. -/
def fraudScore5 (req : FraudRequest) : Rat :=
  if req.rapid_transactions then fraudScore4 req + 0.25 else fraudScore4 req

/-- The simplified-mode risk score, lines 127–155: the accumulated bumps
capped at 0.95 (line 155). -/
def fraudRiskScore (req : FraudRequest) : Rat :=
  ratMin (fraudScore5 req) 0.95

/-- `risk_level` formatting shared by the fraud responses (lines 160, 197,
463). -/
def riskLevel (s : Rat) : String :=
  if s > 0.7 then "HIGH" else if s > 0.4 then "MEDIUM" else "LOW"

/-- Body of the simplified-mode fraud response (lines 157–162). -/
structure SimpleFraudResp where
  is_fraud : Bool
  fraud_probability : Rat
  risk_level : String
  model_type : String
deriving DecidableEq

/-- The simplified-mode response builder (lines 157–162). -/
def simplifiedFraudResp (req : FraudRequest) : SimpleFraudResp :=
  { is_fraud := decide (fraudRiskScore req > 0.5)
    fraud_probability := pyRound 4 (fraudRiskScore req)
    risk_level := riskLevel (fraudRiskScore req)
    model_type := "heuristic" }

/-- Outcome of the opaque fraud-model inference (lines 186–192): the class
prediction, and the probability estimate when `predict_proba` succeeded. -/
structure MLFraud where
  prediction : Int
  proba : Option Rat
deriving DecidableEq

/-- The possible bodies of a `/predict_fraud` response. -/
inductive FraudResult where
  | heuristic (resp : SimpleFraudResp)
  | unavailable (error : String) (fallback : Bool) (is_fraud : Bool)
      (fraud_probability : Rat)
  | model (is_fraud : Bool) (fraud_probability : Rat) (risk_level : String)
      (model_type : String)
  | failure (error : String)
deriving DecidableEq

/-- The `/predict_fraud` dispatcher (lines 115–202), paired with the HTTP
status.  `hasModel` is whether the fraud model handle is non-`None`; `ml` is
the opaque inference outcome, `none` modelling an exception in the model path
(which the outer handler turns into a 500). -/
def predict_fraud (hasModel : Bool) (ml : Option MLFraud) (req : FraudRequest) :
    Nat × FraudResult :=
  if req.simplified then
    (200, .heuristic (simplifiedFraudResp req))
  else if hasModel = false then
    (503, .unavailable "Fraud detection model not loaded" true false 0)
  else
    match ml with
    | none => (500, .failure "model inference error")
    | some m =>
      let p := m.proba.getD (m.prediction : Rat)
      (200, .model (decide (m.prediction ≠ 0)) (pyRound 4 p) (riskLevel p)
        "ml_model")

/-- Analysis-side decomposition of the simplified score: the score as a
function of the five risk-boosting predicate values (amount tier as its
contribution, the four booleans), used to state monotonicity in each
predicate. -/
def fraudScorePreds (tier : Rat) (extreme late foreign rapid : Bool) : Rat :=
  ratMin (tier + (if extreme then (0.2 : Rat) else 0)
    + (if late then (0.1 : Rat) else 0)
    + (if foreign then (0.15 : Rat) else 0)
    + (if rapid then (0.25 : Rat) else 0)) 0.95

/-- The amount-tier contribution (lines 130–135). -/
def amountTier (a : Rat) : Rat :=
  if a > 5000 then 0.3 else if a > 2000 then 0.15 else if a > 1000 then 0.05
  else 0

/-! ## Batch fraud scoring (`/predict_fraud_batch`, lines 435–474) -/

/-- One batch transaction, after JSON extraction: the amount (`Amount` falling
back to `amount` then 0), the foreign flag, and the optional identifier. -/
structure BatchTx where
  id : Option String
  amount : Rat
  is_foreign : Bool
deriving DecidableEq

/-- Per-transaction batch score (lines 447–457): note the batch heuristic has
no 0.05 tier, no hour factor and no rapid-transactions factor. -/
def batchScore (a : Rat) (foreign : Bool) : Rat :=
  let s1 := if a > 5000 then (0.3 : Rat) else if a > 2000 then (0.15 : Rat)
    else 0
  let s2 := if a < 1 ∨ a > 10000 then s1 + 0.2 else s1
  let s3 := if foreign then s2 + 0.15 else s2
  ratMin s3 0.95

/-- One entry of the batch results array (lines 459–464). -/
structure BatchResult where
  transaction_id : Option String
  is_fraud : Bool
  fraud_probability : Rat
  risk_level : String
deriving DecidableEq

/-- The batch response envelope (lines 466–471). -/
structure BatchResponse where
  success : Bool
  results : List BatchResult
  total : Nat
  flagged : Nat
deriving DecidableEq

/-- The `/predict_fraud_batch` endpoint (lines 435–474). -/
def predict_fraud_batch (txs : List BatchTx) : BatchResponse :=
  let results := txs.map fun tx =>
    { transaction_id := tx.id
      is_fraud := decide (batchScore tx.amount tx.is_foreign > 0.5)
      fraud_probability := pyRound 4 (batchScore tx.amount tx.is_foreign)
      risk_level := riskLevel (batchScore tx.amount tx.is_foreign) }
  { success := true
    results := results
    total := results.length
    flagged := (results.filter fun r => r.is_fraud).length }

example : (predict_fraud_batch [⟨none, 6000, false⟩]).results.map
    (fun r => (r.is_fraud, r.fraud_probability)) = [(false, 0.3)] := by
  norm_num [predict_fraud_batch, batchScore, ratMin, pyRound, roundHalfEven]

/-! ## Loan prediction (`/predict_loan`, lines 208–429) -/

/-- A loan application, after the JSON plumbing has applied the endpoint's
defaults (incomes and `LoanAmount` default 0, term 360, `Credit_History` 1,
`Dependents` 0 — with `'3+'` already parsed to 3 — `Gender` `"Male"`,
`Married`/`Self_Employed` `"No"`, `Education` `"Graduate"`, `Property_Area`
`"Urban"`). -/
structure LoanInput where
  applicantIncome : Rat
  coapplicantIncome : Rat
  loanAmount : Rat
  loanTerm : Rat
  creditHistory : Rat
  dependents : Int
  gender : String
  married : String
  education : String
  selfEmployed : String
  propertyArea : String
deriving DecidableEq

/-- The derived quantities of lines 248–259 (`loan_per_person` feeds only the
opaque model features, so it is not carried further). -/
structure LoanDerived where
  total_income : Rat
  emi : Rat
  income_to_loan : Rat
deriving DecidableEq

/-- Feature engineering, lines 248–259: `total_income`, the division guards
(`loan_term == 0 → 360`, `loan_amount == 0 → 1`), `emi` and
`income_to_loan`. -/
def loanDerived (i : LoanInput) : LoanDerived :=
  let total_income := i.applicantIncome + i.coapplicantIncome
  let loan_term := if i.loanTerm = 0 then (360 : Rat) else i.loanTerm
  let loan_amount := if i.loanAmount = 0 then (1 : Rat) else i.loanAmount
  { total_income := total_income
    emi := loan_amount / loan_term
    income_to_loan := total_income / (loan_amount + 1) }

/-- The heuristic score after the credit-history adjustment, lines 310–316:
`score = 0.5`, then `+0.25` when `credit_history == 1` else `−0.35`.  (Each
`score += …` statement of the source is one stage function here.) -/
def loanScore1 (i : LoanInput) : Rat :=
  if i.creditHistory = 1 then (0.5 : Rat) + 0.25 else 0.5 - 0.35

/-- …after the income-to-loan adjustment, lines 319–326. -/
def loanScore2 (i : LoanInput) : Rat :=
  let d := loanDerived i
  if d.income_to_loan > 10 then loanScore1 i + 0.15
  else if d.income_to_loan > 5 then loanScore1 i + 0.1
  else if d.income_to_loan > 2 then loanScore1 i + 0.05
  else if d.income_to_loan < 1 then loanScore1 i - 0.15
  else loanScore1 i

/-- …after the EMI-affordability adjustment, lines 329–337 (applied only when
the monthly income is positive). -/
def loanScore3 (i : LoanInput) : Rat :=
  let d := loanDerived i
  let monthly_income := d.total_income / 12
  if monthly_income > 0 then
    (let emi_ratio := d.emi / monthly_income
     if emi_ratio < 0.2 then loanScore2 i + 0.1
     else if emi_ratio < 0.4 then loanScore2 i + 0.05
     else if emi_ratio > 0.5 then loanScore2 i - 0.1
     else loanScore2 i)
  else loanScore2 i

/-- …after the education bonus, lines 340–341. -/
def loanScore4 (i : LoanInput) : Rat :=
  if i.education = "Graduate" then loanScore3 i + 0.05 else loanScore3 i

/-- …after the married-with-coapplicant bonus, lines 344–345. -/
def loanScore5 (i : LoanInput) : Rat :=
  if i.married = "Yes" ∧ i.coapplicantIncome > 0 then loanScore4 i + 0.05
  else loanScore4 i

/-- The heuristic approval score before clamping, lines 310–352, ending with
the property-area adjustment of lines 348–352. -/
def loanRawScore (i : LoanInput) : Rat :=
  if i.propertyArea = "Semiurban" then loanScore5 i + 0.05
  else if i.propertyArea = "Rural" then loanScore5 i - 0.05
  else loanScore5 i

/-- The clamped heuristic score, line 355: `max(0.05, min(0.95, score))`. -/
def loanHeuristicScore (i : LoanInput) : Rat :=
  ratMax 0.05 (ratMin 0.95 (loanRawScore i))

/-- Python's `f'{x:.1f}'` at the exact-rational level: round half-to-even to
one decimal and render.  (All formatted values in the theorems below are exact
one-decimal values, where this agrees with CPython's binary-float
formatting.) -/
def fmt1 (q : Rat) : String :=
  let n := roundHalfEven (q * 10)
  let sign := if n < 0 then "-" else ""
  let m := n.natAbs
  sign ++ s!"{m / 10}.{m % 10}"

/-- One entry of the risk-assessment breakdown (lines 368–429). -/
structure RiskFactor where
  factor : String
  status : String
  message : String
deriving DecidableEq

/-- `get_risk_factors` (lines 368–429): the credit-history and
income-to-loan factors are always appended; the EMI-affordability factor only
when the monthly income recomputed from the request is positive. -/
def get_risk_factors (i : LoanInput) (emi income_to_loan credit_history : Rat) :
    List RiskFactor :=
  let credit : RiskFactor :=
    if credit_history = 1 then
      ⟨"Credit History", "positive", "Good credit history"⟩
    else
      ⟨"Credit History", "negative", "No credit history or defaults"⟩
  let ratio : RiskFactor :=
    if income_to_loan > 5 then
      ⟨"Income-to-Loan Ratio", "positive",
        "Strong ratio: " ++ fmt1 income_to_loan ++ "x"⟩
    else if income_to_loan > 2 then
      ⟨"Income-to-Loan Ratio", "neutral",
        "Adequate ratio: " ++ fmt1 income_to_loan ++ "x"⟩
    else
      ⟨"Income-to-Loan Ratio", "negative",
        "Low ratio: " ++ fmt1 income_to_loan ++ "x"⟩
  let monthly_income := (i.applicantIncome + i.coapplicantIncome) / 12
  let emiFactors : List RiskFactor :=
    if monthly_income > 0 then
      let emi_percent := emi / monthly_income * 100
      if emi_percent < 30 then
        [⟨"EMI Affordability", "positive",
          "EMI is " ++ fmt1 emi_percent ++ "% of monthly income"⟩]
      else if emi_percent < 50 then
        [⟨"EMI Affordability", "neutral",
          "EMI is " ++ fmt1 emi_percent ++ "% of monthly income"⟩]
      else
        [⟨"EMI Affordability", "negative",
          "EMI is " ++ fmt1 emi_percent ++ "% of monthly income (high)"⟩]
    else []
  [credit, ratio] ++ emiFactors

/-- Outcome of the opaque loan-model inference (lines 290–296). -/
structure MLLoan where
  prediction : Int
  proba : Option Rat
deriving DecidableEq

/-- The `/predict_loan` success response body (lines 298–303 and 357–362). -/
structure LoanResponse where
  is_approved : Bool
  approval_probability : Rat
  risk_assessment : List RiskFactor
  model_type : String
deriving DecidableEq

/-- The heuristic-path response (lines 357–362). -/
def predictLoanHeuristic (i : LoanInput) : LoanResponse :=
  let d := loanDerived i
  { is_approved := decide (loanHeuristicScore i ≥ 0.5)
    approval_probability := pyRound 4 (loanHeuristicScore i)
    risk_assessment := get_risk_factors i d.emi d.income_to_loan
      i.creditHistory
    model_type := "heuristic" }

/-- The model-path response (lines 290–303): `bool(prediction)`, probability
from `predict_proba` with the class prediction as fallback. -/
def mlLoanResponse (m : MLLoan) (i : LoanInput) : LoanResponse :=
  let d := loanDerived i
  let probability := m.proba.getD (m.prediction : Rat)
  { is_approved := decide (m.prediction ≠ 0)
    approval_probability := pyRound 4 probability
    risk_assessment := get_risk_factors i d.emi d.income_to_loan
      i.creditHistory
    model_type := "ml_model" }

/-- The `/predict_loan` dispatcher (lines 228–362): the model path is taken
when a loan model handle exists and neither feature construction nor inference
raised (`ml = some _`); otherwise the heuristic path runs. -/
def predict_loan (hasModel : Bool) (ml : Option MLLoan) (i : LoanInput) :
    LoanResponse :=
  if hasModel then
    match ml with
    | some m => mlLoanResponse m i
    | none => predictLoanHeuristic i
  else predictLoanHeuristic i

/-! Spec-side restatement of the loan heuristic (spec §4.3, the C2 rules),
written as a sum of independent adjustments plus a clamp, to be compared with
the sequential source computation. -/

/-- Spec rule: `credit_history==1 → +0.25 else −0.35`. -/
def creditAdj (ch : Rat) : Rat := if ch = 1 then 0.25 else -0.35

/-- Spec rule: `income_to_loan thresholds: >10 +0.15, >5 +0.10, >2 +0.05,
<1 −0.15`. -/
def incomeLoanAdj (r : Rat) : Rat :=
  if r > 10 then 0.15 else if r > 5 then 0.1 else if r > 2 then 0.05
  else if r < 1 then -0.15 else 0

/-- Spec rule: `EMI-to-monthly-income ratio: <0.2 +0.10, <0.4 +0.05,
>0.5 −0.10` (the ratio exists only when the monthly income is positive). -/
def emiRatioAdj (emi monthly : Rat) : Rat :=
  if monthly > 0 then
    (if emi / monthly < 0.2 then 0.1 else if emi / monthly < 0.4 then 0.05
     else if emi / monthly > 0.5 then -0.1 else 0)
  else 0

/-- Spec rule: `Education==Graduate +0.05`. -/
def educationAdj (e : String) : Rat := if e = "Graduate" then 0.05 else 0

/-- Spec rule: `Married==Yes and coapplicant_income>0 +0.05`. -/
def marriedAdj (m : String) (coapp : Rat) : Rat :=
  if m = "Yes" ∧ coapp > 0 then 0.05 else 0

/-- Spec rule: `Property_Area Semiurban +0.05, Rural −0.05`. -/
def areaAdj (a : String) : Rat :=
  if a = "Semiurban" then 0.05 else if a = "Rural" then -0.05 else 0

/-- Spec §4.3 heuristic score: `start score=0.5`, add the six stated
adjustments, `clamp to [0.05,0.95]`. -/
def loanScoreSpec (i : LoanInput) : Rat :=
  let d := loanDerived i
  ratMax 0.05 (ratMin 0.95
    (0.5 + creditAdj i.creditHistory + incomeLoanAdj d.income_to_loan
      + emiRatioAdj d.emi (d.total_income / 12) + educationAdj i.education
      + marriedAdj i.married i.coapplicantIncome + areaAdj i.propertyArea))

/-! ## Loan calculator (`/calculate_loan`, lines 480–515) -/

/-- The `/calculate_loan` success response body (lines 505–512). -/
structure CalcLoanResponse where
  emi : Rat
  total_payment : Rat
  total_interest : Rat
  principal : Rat
  rate : Rat
  months : Int
deriving DecidableEq

/-- The EMI assignment of lines 493–500: `monthly_rate = rate/100/12`; the
amortization formula when it is positive, else `principal/months`. -/
def emiRaw (principal rate : Rat) (months : Int) : Rat :=
  let monthly_rate := rate / 100 / 12
  if monthly_rate > 0 then
    principal * monthly_rate * (1 + monthly_rate) ^ months.toNat /
      ((1 + monthly_rate) ^ months.toNat - 1)
  else principal / (months : Rat)

/-- The `/calculate_loan` endpoint (lines 480–515).  `principal` and `rate`
are the extracted floats (`rate` defaulting to 12), `months` the extracted
int (defaulting to 360). -/
def calculate_loan (principal rate : Rat) (months : Int) :
    Except (Nat × String) CalcLoanResponse :=
  let annual_rate := rate / 100
  if principal ≤ 0 ∨ months ≤ 0 then
    .error (400, "Invalid loan amount or term")
  else
    let emi := emiRaw principal rate months
    let total_payment := emi * (months : Rat)
    let total_interest := total_payment - principal
    .ok { emi := pyRound 2 emi
          total_payment := pyRound 2 total_payment
          total_interest := pyRound 2 total_interest
          principal := principal
          rate := annual_rate * 100
          months := months }

/-! ## Expense categorization (lines 523–693) -/

/-- Does `needle` occur at the head of `haystack`? -/
def charsStart : List Char → List Char → Bool
  | [], _ => true
  | _ :: _, [] => false
  | a :: as, b :: bs => a == b && charsStart as bs

/-- Does `needle` occur anywhere in `haystack`?  (Python's `kw in s`.) -/
def charsHas (needle : List Char) : List Char → Bool
  | [] => charsStart needle []
  | c :: t => charsStart needle (c :: t) || charsHas needle t

/-- Python's substring test `needle in haystack`. -/
def strContains (haystack needle : String) : Bool :=
  charsHas needle.data haystack.data

/-- Python's `str.lower()` (ASCII-faithful, like the keyword lists it is
compared against): the same character mapping as `String.toLower`, written by
structural recursion over the characters. -/
def pyLower (s : String) : String := ⟨s.data.map Char.toLower⟩

/-- Food & Dining keywords (lines 541–543). -/
def foodKeywords : List String :=
  ["swiggy", "zomato", "restaurant", "cafe", "food", "pizza", "burger",
   "coffee", "dinner", "lunch", "breakfast", "mcdonald", "starbucks",
   "domino", "kfc", "subway"]

/-- Transportation keywords (lines 547–549). -/
def transportKeywords : List String :=
  ["uber", "ola", "rapido", "metro", "petrol", "fuel", "gas station",
   "parking", "toll", "cab", "taxi", "bus", "train", "flight", "airline"]

/-- Shopping keywords (lines 553–554). -/
def shoppingKeywords : List String :=
  ["amazon", "flipkart", "myntra", "shopping", "store", "mart", "purchase",
   "order", "delivery", "grocery"]

/-- Bills & Utilities keywords (lines 558–560). -/
def billsKeywords : List String :=
  ["electricity", "water bill", "internet", "broadband", "mobile recharge",
   "rent", "maintenance", "utility", "gas bill", "phone bill", "dth"]

/-- Entertainment keywords (lines 564–565). -/
def entertainmentKeywords : List String :=
  ["netflix", "spotify", "movie", "cinema", "game", "hotstar", "prime",
   "youtube", "concert", "show"]

/-- Healthcare keywords (lines 569–570). -/
def healthcareKeywords : List String :=
  ["hospital", "doctor", "pharmacy", "medicine", "medical", "clinic",
   "health", "dental", "lab test"]

/-- Education keywords (lines 574–575). -/
def educationKeywords : List String :=
  ["course", "tuition", "school", "college", "book", "udemy", "coursera",
   "education", "training"]

/-- Travel keywords (lines 579–580). -/
def travelKeywords : List String :=
  ["hotel", "booking", "airbnb", "makemytrip", "goibibo", "travel",
   "vacation", "trip"]

/-- `get_category_fallback` (lines 536–584): lower-case the description and
test the eight keyword lists in source order, first match winning; the default
is `('Others', 0.50)`. -/
def get_category_fallback (description : String) : String × Rat :=
  let dl := pyLower description
  if foodKeywords.any (fun kw => strContains dl kw) then ("Food & Dining", 0.85)
  else if transportKeywords.any (fun kw => strContains dl kw) then
    ("Transportation", 0.85)
  else if shoppingKeywords.any (fun kw => strContains dl kw) then
    ("Shopping", 0.85)
  else if billsKeywords.any (fun kw => strContains dl kw) then
    ("Bills & Utilities", 0.85)
  else if entertainmentKeywords.any (fun kw => strContains dl kw) then
    ("Entertainment", 0.85)
  else if healthcareKeywords.any (fun kw => strContains dl kw) then
    ("Healthcare", 0.85)
  else if educationKeywords.any (fun kw => strContains dl kw) then
    ("Education", 0.85)
  else if travelKeywords.any (fun kw => strContains dl kw) then
    ("Travel", 0.85)
  else ("Others", 0.5)

/-- Display metadata per category (lines 523–534). -/
structure CategoryMeta where
  icon : String
  color : String
deriving DecidableEq

/-- The static `CATEGORY_METADATA` table (lines 523–534). -/
def CATEGORY_METADATA : List (String × CategoryMeta) :=
  [("Food & Dining", ⟨"restaurant", "#ef4444"⟩),
   ("Transportation", ⟨"directions_car", "#f97316"⟩),
   ("Shopping", ⟨"shopping_bag", "#8b5cf6"⟩),
   ("Bills & Utilities", ⟨"receipt_long", "#06b6d4"⟩),
   ("Entertainment", ⟨"movie", "#ec4899"⟩),
   ("Healthcare", ⟨"local_hospital", "#10b981"⟩),
   ("Education", ⟨"school", "#3b82f6"⟩),
   ("Travel", ⟨"flight", "#14b8a6"⟩),
   ("Personal Care", ⟨"spa", "#f472b6"⟩),
   ("Others", ⟨"category", "#6b7280"⟩)]

/-- `CATEGORY_METADATA.get(prediction, CATEGORY_METADATA['Others'])`
(lines 622 and 675). -/
def categoryMeta (c : String) : CategoryMeta :=
  (CATEGORY_METADATA.lookup c).getD ⟨"category", "#6b7280"⟩

/-- The `/categorize_expense` success response body (lines 624–630). -/
structure CatResponse where
  category : String
  confidence : Rat
  icon : String
  color : String
  model_used : String
deriving DecidableEq

/-- The `/categorize_expense` endpoint (lines 587–633).  `hasC`/`hasV` are
whether the classifier and vectorizer handles are non-`None`; `ml` is the
opaque model outcome (label, max-probability × 100) for this description,
consulted only when the model path is taken. -/
def categorize_expense (hasC hasV : Bool) (ml : String × Rat)
    (description : String) : Except (Nat × String) CatResponse :=
  if description = "" then .error (400, "Description is required")
  else
    let pc : String × Rat :=
      if hasC && hasV then ml
      else
        let f := get_category_fallback description
        (f.1, f.2 * 100)
    let meta := categoryMeta pc.1
    .ok { category := pc.1
          confidence := pyRound 2 pc.2
          icon := meta.icon
          color := meta.color
          model_used := if hasC then "ml" else "fallback" }

/-- One entry of the `/categorize_batch` results array (lines 677–684). -/
structure BatchCatItem where
  id : String
  description : String
  category : String
  confidence : Rat
  icon : String
  color : String
deriving DecidableEq

/-- The `/categorize_batch` response envelope (lines 686–690). -/
structure BatchCatResponse where
  results : List BatchCatItem
  count : Nat
  model_used : String
deriving DecidableEq

/-- The `/categorize_batch` endpoint (lines 636–693); `ml` gives the opaque
model outcome per description. -/
def categorize_batch (hasC hasV : Bool) (ml : String → String × Rat)
    (txns : List (String × String)) : Except (Nat × String) BatchCatResponse :=
  if txns = [] then .error (400, "Transactions array is required")
  else
    .ok { results := txns.map fun t =>
            let pc : String × Rat :=
              if hasC && hasV then ml t.2
              else
                let f := get_category_fallback t.2
                (f.1, f.2 * 100)
            let meta := categoryMeta pc.1
            { id := t.1
              description := t.2
              category := pc.1
              confidence := pyRound 2 pc.2
              icon := meta.icon
              color := meta.color }
          count := txns.length
          model_used := if hasC then "ml" else "fallback" }

/-! Spec-side restatement of the keyword fallback (spec §4.5): an ordered
priority table searched for the first category whose keyword list matches. -/

/-- The spec's priority-ordered keyword table. -/
def KEYWORD_PRIORITY : List (String × List String) :=
  [("Food & Dining", foodKeywords),
   ("Transportation", transportKeywords),
   ("Shopping", shoppingKeywords),
   ("Bills & Utilities", billsKeywords),
   ("Entertainment", entertainmentKeywords),
   ("Healthcare", healthcareKeywords),
   ("Education", educationKeywords),
   ("Travel", travelKeywords)]

/-- First category of the table whose keyword list matches the (already
lower-cased) description. -/
def firstMatch (dl : String) : List (String × List String) → Option String
  | [] => none
  | (c, kws) :: rest =>
    if kws.any (fun kw => strContains dl kw) then some c else firstMatch dl rest

/-- Spec §4.5 fallback: first matching category in priority order with
confidence 0.85, else `('Others', 0.50)`. -/
def specCategoryFallback (d : String) : String × Rat :=
  match firstMatch (pyLower d) KEYWORD_PRIORITY with
  | some c => (c, 0.85)
  | none => ("Others", 0.5)

/-! ## Helper lemmas -/

theorem ratMin_le_left (a b : Rat) : ratMin a b ≤ a := by
  unfold ratMin; split
  · exact le_refl a
  · exact le_of_not_le (by assumption)

theorem ratMin_le_right (a b : Rat) : ratMin a b ≤ b := by
  unfold ratMin; split
  · assumption
  · exact le_refl b

theorem ratMin_mono_left {a b : Rat} (c : Rat) (h : a ≤ b) :
    ratMin a c ≤ ratMin b c := by
  unfold ratMin
  split <;> split <;> first | assumption | linarith

theorem le_ratMax_left (a b : Rat) : a ≤ ratMax a b := by
  unfold ratMax; split
  · assumption
  · exact le_refl a

theorem ratMax_le (a b c : Rat) (h1 : a ≤ c) (h2 : b ≤ c) : ratMax a b ≤ c := by
  unfold ratMax; split <;> assumption

theorem roundHalfEven_le {q : Rat} {n : Int} (h : q ≤ n) :
    roundHalfEven q ≤ n := by
  have hfl : (⌊q⌋ : Rat) ≤ q := Int.floor_le q
  have hfln : ⌊q⌋ ≤ n := by
    have := Int.floor_mono h
    simpa using this
  have hcast : (⌊q⌋ : Rat) ≤ (n : Rat) := by exact_mod_cast hfln
  simp only [roundHalfEven]
  split_ifs with h1 h2 h3
  · exact hfln
  · have hq : (⌊q⌋ : Rat) + 1/2 < q := by
      have hgt : q - ⌊q⌋ > 1/2 := h2
      linarith
    have hlt : (⌊q⌋ : Rat) < (n : Rat) := by linarith
    have : ⌊q⌋ < n := by exact_mod_cast hlt
    omega
  · exact hfln
  · have hq : q = (⌊q⌋ : Rat) + 1/2 := by
      push_neg at h1 h2
      linarith
    have hle2 : (⌊q⌋ : Rat) + 1/2 ≤ (n : Rat) := by rw [← hq]; exact h
    have hlt : (⌊q⌋ : Rat) < (n : Rat) := by linarith
    have : ⌊q⌋ < n := by exact_mod_cast hlt
    omega

theorem pyRound4_le_95 {q : Rat} (h : q ≤ 0.95) : pyRound 4 q ≤ 0.95 := by
  unfold pyRound
  have h1 : q * 10 ^ 4 ≤ ((9500 : Int) : Rat) := by push_cast; nlinarith
  have h2 : roundHalfEven (q * 10 ^ 4) ≤ 9500 := roundHalfEven_le h1
  have h3 : ((roundHalfEven (q * 10 ^ 4) : Int) : Rat) ≤ 9500 := by
    exact_mod_cast h2
  have : ((roundHalfEven (q * 10 ^ 4) : Int) : Rat) / 10 ^ 4 ≤ 9500 / 10 ^ 4 :=
    by apply div_le_div_of_nonneg_right h3; norm_num
  calc ((roundHalfEven (q * 10 ^ 4) : Int) : Rat) / 10 ^ 4
      ≤ 9500 / 10 ^ 4 := this
    _ = 0.95 := by norm_num

/-- The risk-assessment list is the same on every `/predict_loan` path. -/
theorem predict_loan_risk_assessment (hasModel : Bool) (ml : Option MLLoan)
    (i : LoanInput) :
    (predict_loan hasModel ml i).risk_assessment =
      get_risk_factors i (loanDerived i).emi (loanDerived i).income_to_loan
        i.creditHistory := by
  cases hasModel <;> cases ml <;>
    simp [predict_loan, predictLoanHeuristic, mlLoanResponse]

/-! ## Claims -/

/-- C1 (counterexample): the claim says a batch request with one transaction
of `Amount = 6000` and no other boosting factors yields `is_fraud = true` with
`fraud_probability = 0.3`; but the code's threshold is `risk_score > 0.5`, so
the 0.3 score is not flagged — the claimed result is false on the code. -/
theorem c1_counterexample :
    ¬ ((predict_fraud_batch [⟨none, 6000, false⟩]).results.map
        (fun r => (r.is_fraud, r.fraud_probability)) = [(true, 0.3)]) := by
  norm_num [predict_fraud_batch, batchScore, ratMin, pyRound, roundHalfEven]

/-- C1 (amended): for a `predict_fraud_batch` request containing exactly one
transaction with `Amount = 6000` and `is_foreign` absent or false, the
per-transaction result has `is_fraud = false` (0.3 does not exceed the 0.5
threshold) and `fraud_probability = 0.3`, and the transaction is not counted
as flagged. -/
theorem c1_batch_amount_6000 :
    predict_fraud_batch [⟨none, 6000, false⟩] =
      { success := true
        results := [⟨none, false, 0.3, "LOW"⟩]
        total := 1
        flagged := 0 } := by
  norm_num [predict_fraud_batch, batchScore, ratMin, pyRound, roundHalfEven,
    riskLevel]

/-- C8: when the non-simplified (model) path of `predict_fraud` is selected
and the fraud model handle is absent, the response is HTTP 503 with a
fully-formed body carrying `fallback = true`, `is_fraud = false` and
`fraud_probability = 0.0`, regardless of the rest of the request and of any
model outcome. -/
theorem c8_fraud_model_unavailable (req : FraudRequest) (ml : Option MLFraud)
    (h : req.simplified = false) :
    predict_fraud false ml req =
      (503, .unavailable "Fraud detection model not loaded" true false 0) := by
  simp [predict_fraud, h]

theorem c8_fraud_model_unavailable_witness :
    (({ simplified := false, amount := 700, hour := 12, is_foreign := false,
        rapid_transactions := false } : FraudRequest).simplified = false) ∧
    predict_fraud false none
        { simplified := false, amount := 700, hour := 12, is_foreign := false,
          rapid_transactions := false } =
      (503, .unavailable "Fraud detection model not loaded" true false 0) :=
  ⟨rfl, c8_fraud_model_unavailable _ none rfl⟩

/-- C9: when a loan model handle exists and the feature construction or model
inference fails (modelled by the opaque inference outcome being `none`, as the
`try/except` treats any exception), `predict_loan` returns exactly the normal
heuristic response, whose `model_type` is `"heuristic"` — not an error
response. -/
theorem c9_loan_model_failure_falls_back (i : LoanInput) :
    predict_loan true none i = predictLoanHeuristic i ∧
    (predict_loan true none i).model_type = "heuristic" :=
  ⟨by simp [predict_loan], by simp [predict_loan, predictLoanHeuristic]⟩

/-- C10: the keyword fallback is total: for every description it returns a
category that is a key of `CATEGORY_METADATA`, with confidence 0.85 for one of
the eight keyword categories and 0.50 for `"Others"`; it never produces
`"Personal Care"`, even though `"Personal Care"` is one of the 10 entries of
the metadata table. -/
theorem c10_fallback_total (d : String) :
    (CATEGORY_METADATA.lookup (get_category_fallback d).1).isSome = true ∧
    (((get_category_fallback d).2 = 0.85 ∧ (get_category_fallback d).1 ∈
        ["Food & Dining", "Transportation", "Shopping", "Bills & Utilities",
         "Entertainment", "Healthcare", "Education", "Travel"]) ∨
      ((get_category_fallback d).2 = 0.5 ∧
        (get_category_fallback d).1 = "Others")) ∧
    (get_category_fallback d).1 ≠ "Personal Care" ∧
    (CATEGORY_METADATA.lookup "Personal Care").isSome = true ∧
    CATEGORY_METADATA.length = 10 := by
  simp only [get_category_fallback]
  split_ifs <;>
    first
      | exact ⟨by decide, Or.inl ⟨rfl, by decide⟩, by decide, by decide, rfl⟩
      | exact ⟨by decide, Or.inr ⟨rfl, rfl⟩, by decide, by decide, rfl⟩

/-- C7: with no expense model loaded,
`categorize_expense("Swiggy order delivered Rs 450")` returns category
`"Food & Dining"` with confidence 85.0 and icon `"restaurant"`; and in general
the keyword fallback lower-cases the description and tests the fixed keyword
lists in their stated priority order with first match winning (returning
confidence 0.85 on any match, 0.50 for the default `"Others"`), i.e. it equals
the spec-side priority-table search. -/
theorem c7_swiggy_and_priority :
    get_category_fallback "Swiggy order delivered Rs 450" =
      ("Food & Dining", 0.85) ∧
    categorize_expense false false ("", 0) "Swiggy order delivered Rs 450" =
      .ok { category := "Food & Dining", confidence := 85,
            icon := "restaurant", color := "#ef4444",
            model_used := "fallback" } ∧
    ∀ d, get_category_fallback d = specCategoryFallback d := by
  have hfood : (foodKeywords.any fun kw =>
      strContains (pyLower "Swiggy order delivered Rs 450") kw) = true := by
    decide
  have h1 : get_category_fallback "Swiggy order delivered Rs 450" =
      ("Food & Dining", 0.85) := by
    simp [get_category_fallback, hfood]
  have hmeta : categoryMeta "Food & Dining" = ⟨"restaurant", "#ef4444"⟩ := by
    decide
  have hne : ¬ ("Swiggy order delivered Rs 450" = "") := by decide
  refine ⟨h1, ?_, ?_⟩
  · simp only [categorize_expense, if_neg hne, Bool.and_self, Bool.false_and,
      if_false, h1]
    norm_num [hmeta, pyRound, roundHalfEven]
  · intro d
    simp only [get_category_fallback, specCategoryFallback, KEYWORD_PRIORITY,
      firstMatch]
    split_ifs <;> rfl

/-- C6 (failing scenario): the claim requires `model_used = 'ml'` exactly when
the ML path produced the result; but the path condition checks both handles
while `model_used` checks only the classifier.  With the classifier handle
present and the vectorizer handle absent, the keyword fallback produces the
category (as the fallback-derived `"Food & Dining"`/85 output shows — the
opaque model outcome passed in is a different label), yet both endpoints
report `model_used = "ml"`. -/
theorem c6_model_used_mismatch :
    categorize_expense true false ("Entertainment", 99) "coffee" =
      .ok { category := "Food & Dining", confidence := 85,
            icon := "restaurant", color := "#ef4444", model_used := "ml" } ∧
    categorize_batch true false (fun _ => ("Entertainment", 99))
        [("t1", "coffee")] =
      .ok { results := [⟨"t1", "coffee", "Food & Dining", 85, "restaurant",
              "#ef4444"⟩]
            count := 1
            model_used := "ml" } := by
  have hfood : (foodKeywords.any fun kw =>
      strContains (pyLower "coffee") kw) = true := by decide
  have h1 : get_category_fallback "coffee" = ("Food & Dining", 0.85) := by
    simp [get_category_fallback, hfood]
  have hmeta : categoryMeta "Food & Dining" = ⟨"restaurant", "#ef4444"⟩ := by
    decide
  have hne : ¬ ("coffee" = "") := by decide
  constructor
  · simp only [categorize_expense, if_neg hne, Bool.and_false, if_false, h1]
    norm_num [hmeta, pyRound, roundHalfEven]
  · simp only [categorize_batch, List.map, h1, Bool.and_false, if_false]
    norm_num [hmeta, pyRound, roundHalfEven]

/-- C4: for every `principal > 0` and `months > 0`, `calculate_loan` succeeds
with `emi` the (2-decimal rounded) raw EMI, `total_payment = emi·months` and
`total_interest = total_payment − principal` (rounded for the response); the
raw EMI is the amortization formula `P·r·(1+r)^n / ((1+r)^n − 1)` whenever the
monthly rate is positive, and exactly `principal/months` when the rate is
0. -/
theorem c4_calculate_loan (p r : Rat) (m : Int) (hp : 0 < p) (hm : 0 < m) :
    calculate_loan p r m = .ok
      { emi := pyRound 2 (emiRaw p r m)
        total_payment := pyRound 2 (emiRaw p r m * (m : Rat))
        total_interest := pyRound 2 (emiRaw p r m * (m : Rat) - p)
        principal := p
        rate := r / 100 * 100
        months := m } ∧
    (r / 100 / 12 > 0 →
      emiRaw p r m = p * (r / 100 / 12) * (1 + r / 100 / 12) ^ m.toNat /
        ((1 + r / 100 / 12) ^ m.toNat - 1)) ∧
    (r = 0 → emiRaw p r m = p / (m : Rat)) := by
  refine ⟨?_, ?_, ?_⟩
  · simp only [calculate_loan]
    rw [if_neg]
    push_neg
    exact ⟨hp, hm⟩
  · intro h
    simp only [emiRaw]
    rw [if_pos h]
  · intro h
    subst h
    simp only [emiRaw]
    norm_num

theorem c4_calculate_loan_witness :
    (0 : Rat) < 1200 ∧ (0 : Int) < 12 ∧ calculate_loan 1200 0 12 = .ok
      { emi := pyRound 2 (emiRaw 1200 0 12)
        total_payment := pyRound 2 (emiRaw 1200 0 12 * ((12 : Int) : Rat))
        total_interest := pyRound 2 (emiRaw 1200 0 12 * ((12 : Int) : Rat)
          - 1200)
        principal := 1200
        rate := 0 / 100 * 100
        months := 12 } ∧ emiRaw 1200 0 12 = 1200 / ((12 : Int) : Rat) :=
  ⟨by norm_num, by norm_num,
    (c4_calculate_loan 1200 0 12 (by norm_num) (by norm_num)).1,
    (c4_calculate_loan 1200 0 12 (by norm_num) (by norm_num)).2.2 rfl⟩

/-- C5 (counterexample): the claim says every loan input yields exactly three
risk factors; but when the total income is 0 the monthly-income guard of
`get_risk_factors` suppresses the EMI-affordability factor, leaving only
two. -/
theorem c5_counterexample :
    ¬ ((predict_loan false none
        ⟨0, 0, 100, 360, 1, 0, "Male", "No", "Graduate", "No",
          "Urban"⟩).risk_assessment.length = 3) := by
  rw [predict_loan_risk_assessment]
  norm_num [get_risk_factors, loanDerived]

/-- C5 (amended): on every `/predict_loan` path (ML or heuristic), the
risk-assessment list is the Credit History, Income-to-Loan Ratio and EMI
Affordability factors in that order when the applicant-plus-coapplicant
monthly income is positive, and only the first two factors otherwise; every
factor is tagged `positive`, `neutral` or `negative`. -/
theorem c5_risk_factors (hasModel : Bool) (ml : Option MLLoan) (i : LoanInput) :
    ((i.applicantIncome + i.coapplicantIncome) / 12 > 0 →
      (predict_loan hasModel ml i).risk_assessment.map RiskFactor.factor =
        ["Credit History", "Income-to-Loan Ratio", "EMI Affordability"]) ∧
    (¬ ((i.applicantIncome + i.coapplicantIncome) / 12 > 0) →
      (predict_loan hasModel ml i).risk_assessment.map RiskFactor.factor =
        ["Credit History", "Income-to-Loan Ratio"]) ∧
    ∀ fa ∈ (predict_loan hasModel ml i).risk_assessment,
      fa.status = "positive" ∨ fa.status = "neutral" ∨
        fa.status = "negative" := by
  rw [predict_loan_risk_assessment]
  simp only [get_risk_factors]
  refine ⟨?_, ?_, ?_⟩
  · intro h
    rw [if_pos h]
    split_ifs <;> simp
  · intro h
    rw [if_neg h]
    split_ifs <;> simp
  · intro fa hfa
    revert hfa
    split_ifs <;> intro hfa <;> fin_cases hfa <;> simp

theorem c5_risk_factors_witness :
    (((1200 : Rat) + 0) / 12 > 0 ∧
      (predict_loan false none
        ⟨1200, 0, 100, 360, 1, 0, "Male", "No", "Graduate", "No",
          "Urban"⟩).risk_assessment.map RiskFactor.factor =
        ["Credit History", "Income-to-Loan Ratio", "EMI Affordability"]) ∧
    (¬ (((0 : Rat) + 0) / 12 > 0) ∧
      (predict_loan false none
        ⟨0, 0, 100, 360, 1, 0, "Male", "No", "Graduate", "No",
          "Urban"⟩).risk_assessment.map RiskFactor.factor =
        ["Credit History", "Income-to-Loan Ratio"]) :=
  ⟨⟨by norm_num,
    (c5_risk_factors false none _).1 (by norm_num)⟩,
   ⟨by norm_num,
    (c5_risk_factors false none _).2.1 (by norm_num)⟩⟩

/-- The sequential heuristic accumulation equals the sum of the six spec-side
adjustments. -/
theorem loanRawScore_eq (i : LoanInput) :
    loanRawScore i = 0.5 + creditAdj i.creditHistory
      + incomeLoanAdj (loanDerived i).income_to_loan
      + emiRatioAdj (loanDerived i).emi ((loanDerived i).total_income / 12)
      + educationAdj i.education + marriedAdj i.married i.coapplicantIncome
      + areaAdj i.propertyArea := by
  have h1 : loanScore1 i = 0.5 + creditAdj i.creditHistory := by
    simp only [loanScore1, creditAdj]
    split_ifs <;> ring
  have h2 : loanScore2 i =
      loanScore1 i + incomeLoanAdj (loanDerived i).income_to_loan := by
    simp only [loanScore2, incomeLoanAdj]
    split_ifs <;> ring
  have h3 : loanScore3 i = loanScore2 i +
      emiRatioAdj (loanDerived i).emi ((loanDerived i).total_income / 12) := by
    simp only [loanScore3, emiRatioAdj]
    split_ifs <;> ring
  have h4 : loanScore4 i = loanScore3 i + educationAdj i.education := by
    simp only [loanScore4, educationAdj]
    split_ifs <;> ring
  have h5 : loanScore5 i =
      loanScore4 i + marriedAdj i.married i.coapplicantIncome := by
    simp only [loanScore5, marriedAdj]
    split_ifs <;> ring
  have h6 : loanRawScore i = loanScore5 i + areaAdj i.propertyArea := by
    simp only [loanRawScore, areaAdj]
    split_ifs <;> ring
  rw [h6, h5, h4, h3, h2, h1]

/-- C2: whenever the heuristic path of `predict_loan` runs (no loan model
handle, or the model path failed), the response is the heuristic response; the
heuristic score is exactly 0.5 plus the stated credit-history, income-to-loan,
EMI-ratio, education, married-with-coapplicant and property-area adjustments
clamped into [0.05, 0.95]; the score lies in [0.05, 0.95] for every input;
and `is_approved` holds iff the final score is at least 0.5. -/
theorem c2_loan_heuristic (hasModel : Bool) (ml : Option MLLoan)
    (i : LoanInput) (hpath : hasModel = false ∨ ml = none) :
    predict_loan hasModel ml i = predictLoanHeuristic i ∧
    loanHeuristicScore i = loanScoreSpec i ∧
    0.05 ≤ loanHeuristicScore i ∧ loanHeuristicScore i ≤ 0.95 ∧
    ((predictLoanHeuristic i).is_approved = true ↔
      loanHeuristicScore i ≥ 0.5) := by
  refine ⟨?_, ?_, ?_, ?_, ?_⟩
  · rcases hpath with h | h
    · subst h; simp [predict_loan]
    · subst h; cases hasModel <;> simp [predict_loan]
  · simp only [loanHeuristicScore, loanScoreSpec, loanRawScore_eq]
  · simp only [loanHeuristicScore]
    exact le_ratMax_left _ _
  · simp only [loanHeuristicScore]
    exact ratMax_le _ _ _ (by norm_num) (ratMin_le_left _ _)
  · simp only [predictLoanHeuristic, decide_eq_true_eq]

theorem c2_loan_heuristic_witness :
    ((false = false ∨ (none : Option MLLoan) = none)) ∧
    (predict_loan false none
        ⟨1200, 0, 100, 360, 1, 0, "Male", "No", "Graduate", "No", "Urban"⟩ =
      predictLoanHeuristic
        ⟨1200, 0, 100, 360, 1, 0, "Male", "No", "Graduate", "No", "Urban"⟩ ∧
     loanHeuristicScore
        ⟨1200, 0, 100, 360, 1, 0, "Male", "No", "Graduate", "No", "Urban"⟩ =
      loanScoreSpec
        ⟨1200, 0, 100, 360, 1, 0, "Male", "No", "Graduate", "No", "Urban"⟩ ∧
     0.05 ≤ loanHeuristicScore
        ⟨1200, 0, 100, 360, 1, 0, "Male", "No", "Graduate", "No", "Urban"⟩ ∧
     loanHeuristicScore
        ⟨1200, 0, 100, 360, 1, 0, "Male", "No", "Graduate", "No", "Urban"⟩ ≤
       0.95 ∧
     ((predictLoanHeuristic
        ⟨1200, 0, 100, 360, 1, 0, "Male", "No", "Graduate", "No",
          "Urban"⟩).is_approved = true ↔
      loanHeuristicScore
        ⟨1200, 0, 100, 360, 1, 0, "Male", "No", "Graduate", "No", "Urban"⟩ ≥
        0.5)) :=
  ⟨Or.inl rfl, c2_loan_heuristic false none _ (Or.inl rfl)⟩

/-- C3: the simplified fraud score decomposes as a function of the five
risk-boosting predicate values (amount tier, extreme amount, late hour,
foreign, rapid transactions); that function never decreases when any single
predicate is flipped from false to true (or the amount-tier contribution
grows), and the returned `fraud_probability` never exceeds 0.95. -/
theorem c3_fraud_monotone (t1 t2 : Rat) (e l f r : Bool) (req : FraudRequest)
    (ht : t1 ≤ t2) :
    fraudRiskScore req = fraudScorePreds (amountTier req.amount)
      (decide (req.amount < 1 ∨ req.amount > 10000))
      (decide (req.hour < 6 ∨ req.hour > 23)) req.is_foreign
      req.rapid_transactions ∧
    fraudScorePreds t1 e l f r ≤ fraudScorePreds t2 e l f r ∧
    fraudScorePreds t1 false l f r ≤ fraudScorePreds t1 true l f r ∧
    fraudScorePreds t1 e false f r ≤ fraudScorePreds t1 e true f r ∧
    fraudScorePreds t1 e l false r ≤ fraudScorePreds t1 e l true r ∧
    fraudScorePreds t1 e l f false ≤ fraudScorePreds t1 e l f true ∧
    (simplifiedFraudResp req).fraud_probability ≤ 0.95 := by
  refine ⟨?_, ?_, ?_, ?_, ?_, ?_, ?_⟩
  · have h1 : fraudScore1 req = amountTier req.amount := by
      simp only [fraudScore1, amountTier]
      split_ifs <;> ring
    have h2 : fraudScore2 req = fraudScore1 req
        + (if req.amount < 1 ∨ req.amount > 10000 then (0.2 : Rat) else 0) :=
      by
      simp only [fraudScore2]
      split_ifs <;> ring
    have h3 : fraudScore3 req = fraudScore2 req
        + (if req.hour < 6 ∨ req.hour > 23 then (0.1 : Rat) else 0) := by
      simp only [fraudScore3]
      split_ifs <;> ring
    have h4 : fraudScore4 req = fraudScore3 req
        + (if req.is_foreign then (0.15 : Rat) else 0) := by
      simp only [fraudScore4]
      split_ifs <;> ring
    have h5 : fraudScore5 req = fraudScore4 req
        + (if req.rapid_transactions then (0.25 : Rat) else 0) := by
      simp only [fraudScore5]
      split_ifs <;> ring
    simp only [fraudRiskScore, fraudScorePreds, decide_eq_true_eq]
    congr 1
    rw [h5, h4, h3, h2, h1]
  · simp only [fraudScorePreds]
    exact ratMin_mono_left _
      (add_le_add_right (add_le_add_right (add_le_add_right
        (add_le_add_right ht _) _) _) _)
  · simp only [fraudScorePreds]
    apply ratMin_mono_left
    split_ifs <;> linarith
  · simp only [fraudScorePreds]
    apply ratMin_mono_left
    split_ifs <;> linarith
  · simp only [fraudScorePreds]
    apply ratMin_mono_left
    split_ifs <;> linarith
  · simp only [fraudScorePreds]
    apply ratMin_mono_left
    split_ifs <;> linarith
  · simp only [simplifiedFraudResp]
    apply pyRound4_le_95
    simp only [fraudRiskScore]
    exact ratMin_le_right _ _

theorem c3_fraud_monotone_witness :
    (0 : Rat) ≤ 0.3 ∧
    (fraudRiskScore ⟨true, 6000, 12, false, false⟩ =
        fraudScorePreds (amountTier 6000)
          (decide ((6000 : Rat) < 1 ∨ (6000 : Rat) > 10000))
          (decide ((12 : Rat) < 6 ∨ (12 : Rat) > 23)) false false ∧
      fraudScorePreds 0 false false false false ≤
        fraudScorePreds 0.3 false false false false ∧
      fraudScorePreds 0 false false false false ≤
        fraudScorePreds 0 true false false false ∧
      fraudScorePreds 0 false false false false ≤
        fraudScorePreds 0 false true false false ∧
      fraudScorePreds 0 false false false false ≤
        fraudScorePreds 0 false false true false ∧
      fraudScorePreds 0 false false false false ≤
        fraudScorePreds 0 false false false true ∧
      (simplifiedFraudResp ⟨true, 6000, 12, false, false⟩).fraud_probability ≤
        0.95) :=
  ⟨by norm_num,
    c3_fraud_monotone 0 0.3 false false false false
      ⟨true, 6000, 12, false, false⟩ (by norm_num)⟩
